import Mathlib

/-! Shallow embedding of `scripts/embed_guidelines.py` (GuidelineMonkey).

The script is a linear pipeline: create the persist directory, scan a fixed
directory for `*.pdf` files (sorted), extract text from each file with a
primary extractor (PyPDF) and a fallback (PDFMiner), aggregate all pages,
split into chunks, embed and persist.

The two PDF loaders and the text splitter are external library calls; they
are modelled as parameters (oracles).  A run is modelled as the list of
observable events it performs (directory creation, directory scan, loader
invocations, warnings, skips, persistence) together with its outcome:
`Except.error msg` models `raise SystemExit(msg)` (a non-zero exit), and
`Except.ok chunks` models the normal path that persists the chunks.
-/

namespace EmbedGuidelines

/-- A filesystem path, modelled as its string form. -/
abbrev Path := String

/-- A langchain `Document`: page text plus its source-file metadata. -/
structure Doc where
  page_content : String
  source : Path
deriving DecidableEq, Repr

/-- A PDF loader: on a path it either returns a list of page documents
(`.load()` succeeds) or raises an exception with a message. -/
abbrev Loader := Path → Except String (List Doc)

/-- Observable events of one run, in program order. -/
inductive Event where
  | mkdirPersist : Event
  | scanPdfDir : Event
  | loadPyPDF : Path → Event
  | loadPDFMiner : Path → Event
  | warnPyPDF : Path → String → Event
  | warnPDFMiner : Path → String → Event
  | skipFile : Path → Event
  | okFile : Path → Nat → Nat → Event
  | persistChunks : Nat → Event
deriving DecidableEq, Repr

/-- Python line 25: `sum(len(d.page_content.strip()) for d in pages)`. -/
def strippedTotal (ds : List Doc) : Nat :=
  (ds.map (fun d => d.page_content.trim.length)).sum

/-- Python line 30: `sum(len(d.page_content) for d in pages)`. -/
def rawTotal (ds : List Doc) : Nat :=
  (ds.map (fun d => d.page_content.length)).sum

/-- The value of `pages` after the first `try` block of `extract_pages`:
the PyPDF result, or `[]` (the initial value) when PyPDF raises. -/
def primaryPages (pypdf : Loader) (p : Path) : List Doc :=
  match pypdf p with
  | .ok ds => ds
  | .error _ => []

/-- Events of the first `try` block: the PyPDF call, plus a warning when it
raises. -/
def primaryTrace (pypdf : Loader) (p : Path) : List Event :=
  match pypdf p with
  | .ok _ => [Event.loadPyPDF p]
  | .error e => [Event.loadPyPDF p, Event.warnPyPDF p e]

/-- The value of `pages` after the fallback `if` of `extract_pages`: when the
stripped total of the PyPDF pages is zero, PDFMiner is tried (on an exception
`pages` keeps its previous value); otherwise the PyPDF pages stand. -/
def afterFallback (pypdf pdfminer : Loader) (p : Path) : List Doc :=
  if strippedTotal (primaryPages pypdf p) = 0 then
    match pdfminer p with
    | .ok ds => ds
    | .error _ => primaryPages pypdf p
  else primaryPages pypdf p

/-- Events of the fallback `if`: the PDFMiner call (plus a warning when it
raises), only when the stripped total of the PyPDF pages is zero. -/
def fallbackTrace (pypdf pdfminer : Loader) (p : Path) : List Event :=
  if strippedTotal (primaryPages pypdf p) = 0 then
    match pdfminer p with
    | .ok _ => [Event.loadPDFMiner p]
    | .error e => [Event.loadPDFMiner p, Event.warnPDFMiner p e]
  else []

/-- Python lines 18-35, `extract_pages`: try PyPDF, fall back to
PDFMiner when the stripped total is zero, and skip the file (return `[]`)
when the raw total of the final pages is zero.  Returns the events performed
together with the returned page list. -/
def extract_pages (pypdf pdfminer : Loader) (p : Path) : List Event × List Doc :=
  let pages := afterFallback pypdf pdfminer p
  let ev := primaryTrace pypdf p ++ fallbackTrace pypdf pdfminer p
  if rawTotal pages = 0 then
    (ev ++ [Event.skipFile p], [])
  else
    (ev ++ [Event.okFile p pages.length (rawTotal pages)], pages)

/-- The page list `extract_pages` returns for one file. -/
def filePages (pypdf pdfminer : Loader) (p : Path) : List Doc :=
  (extract_pages pypdf pdfminer p).2

/-- Python line 14, `pdf_files = sorted(PDF_DIR.glob("*.pdf"))`: the raw directory
listing is sorted. -/
def sortPaths (listing : List Path) : List Path :=
  listing.mergeSort

/-- The concatenated per-file event traces of the extraction loop. -/
def extractTraces (files : List Path) (pypdf pdfminer : Loader) : List Event :=
  (files.map (fun p => (extract_pages pypdf pdfminer p).1)).flatten

/-- Python lines 37-39, `all_docs`: the concatenation, file by file in order, of
each file's extracted pages (`all_docs.extend(extract_pages(f))`). -/
def extractedDocs (files : List Path) (pypdf pdfminer : Loader) : List Doc :=
  (files.map (filePages pypdf pdfminer)).flatten

/-- The value of `all_docs` for a raw listing, after the sort of line 14. -/
def allDocs (listing : List Path) (pypdf pdfminer : Loader) : List Doc :=
  extractedDocs (sortPaths listing) pypdf pdfminer

/-- The pipeline on an already-sorted file list: the emptiness checks of
lines 15-16, 41-42 and 46-47 each `raise SystemExit` (modelled `.error`),
otherwise the chunks are embedded and persisted (modelled `.ok`). -/
def runSorted (files : List Path) (pypdf pdfminer : Loader)
    (split : List Doc → List Doc) : List Event × Except String (List Doc) :=
  if files = [] then
    ([Event.mkdirPersist, Event.scanPdfDir], .error "No PDFs found in PDF_DIR")
  else if extractedDocs files pypdf pdfminer = [] then
    ([Event.mkdirPersist, Event.scanPdfDir] ++ extractTraces files pypdf pdfminer,
      .error "No text extracted from any PDF. If they are scanned, run OCR and re-run.")
  else if split (extractedDocs files pypdf pdfminer) = [] then
    ([Event.mkdirPersist, Event.scanPdfDir] ++ extractTraces files pypdf pdfminer,
      .error "Text was extracted but chunking produced 0 chunks; adjust splitter settings.")
  else
    ([Event.mkdirPersist, Event.scanPdfDir] ++ extractTraces files pypdf pdfminer
        ++ [Event.persistChunks (split (extractedDocs files pypdf pdfminer)).length],
      .ok (split (extractedDocs files pypdf pdfminer)))

/-- The whole script on a raw directory listing: `PERSIST_DIR.mkdir` (line
11) and the scan (line 14) happen first, the listing is sorted, and the
sorted pipeline runs. -/
def run (listing : List Path) (pypdf pdfminer : Loader)
    (split : List Doc → List Doc) : List Event × Except String (List Doc) :=
  runSorted (sortPaths listing) pypdf pdfminer split

/-- Whether an outcome is an abnormal termination (`raise SystemExit`). -/
def isErr {α : Type} : Except String α → Bool
  | .error _ => true
  | .ok _ => false

/-- Python line 44: `chunk_size=1000`. -/
def CHUNK_SIZE : Nat := 1000

/-- Python line 44: `chunk_overlap=150`. -/
def CHUNK_OVERLAP : Nat := 150

/-- Modelled from the spec: the chunking done by the external
`RecursiveCharacterTextSplitter` library call (its code is not part of this
repository) — "break aggregated text into fixed-size overlapping chunks"
with the constants of line 44: windows of `CHUNK_SIZE` characters whose
starts step by `CHUNK_SIZE - CHUNK_OVERLAP`. -/
def splitFixed (s : List Char) : List (List Char) :=
  if s.length ≤ CHUNK_SIZE then
    (if s.isEmpty then [] else [s])
  else
    s.take CHUNK_SIZE :: splitFixed (s.drop (CHUNK_SIZE - CHUNK_OVERLAP))
termination_by s.length
decreasing_by
  simp only [List.length_drop]
  simp only [CHUNK_SIZE, CHUNK_OVERLAP] at *
  omega

/-- The number of chunks as a function of the character count alone. -/
def chunkCount (n : Nat) : Nat :=
  if n = 0 then 0
  else if n ≤ CHUNK_SIZE then 1
  else 1 + chunkCount (n - (CHUNK_SIZE - CHUNK_OVERLAP))
termination_by n
decreasing_by
  simp only [CHUNK_SIZE, CHUNK_OVERLAP] at *
  omega

/-- Sample loader returning one page of plain text. -/
def okLoader : Loader := fun p => .ok [{ page_content := "hello world", source := p }]

/-- Sample loader returning no pages at all. -/
def emptyLoader : Loader := fun _ => .ok []

/-- Sample loader that always raises. -/
def failLoader : Loader := fun _ => .error "boom"

/-- Sample loader returning one whitespace-only page. -/
def wsLoader : Loader := fun p => .ok [{ page_content := "   ", source := p }]

/-- Sample loader with text for `a.pdf` only, tagging pages with their
source path. -/
def srcLoader : Loader := fun p =>
  if p = "a.pdf" then .ok [{ page_content := "hello", source := p }] else .ok []

/-- Sample splitter: the identity (each page is its own chunk). -/
def idSplit : List Doc → List Doc := fun ds => ds

/-! Lemmas about `extract_pages`. -/

theorem extract_pages_snd (pypdf pdfminer : Loader) (p : Path) :
    (extract_pages pypdf pdfminer p).2 =
      if rawTotal (afterFallback pypdf pdfminer p) = 0 then []
      else afterFallback pypdf pdfminer p := by
  simp only [extract_pages]
  split <;> rfl

theorem extract_pages_fst (pypdf pdfminer : Loader) (p : Path) :
    (extract_pages pypdf pdfminer p).1 =
      primaryTrace pypdf p ++ fallbackTrace pypdf pdfminer p ++
        (if rawTotal (afterFallback pypdf pdfminer p) = 0 then [Event.skipFile p]
         else [Event.okFile p (afterFallback pypdf pdfminer p).length
                (rawTotal (afterFallback pypdf pdfminer p))]) := by
  simp only [extract_pages]
  split <;> simp_all

theorem extract_head (pypdf pdfminer : Loader) (p : Path) :
    (extract_pages pypdf pdfminer p).1.head? = some (Event.loadPyPDF p) := by
  rw [extract_pages_fst]
  cases hp : pypdf p <;> simp [primaryTrace, hp]

theorem mem_loadPDFMiner_iff (pypdf pdfminer : Loader) (p : Path) :
    Event.loadPDFMiner p ∈ (extract_pages pypdf pdfminer p).1 ↔
      strippedTotal (primaryPages pypdf p) = 0 := by
  rw [extract_pages_fst]
  by_cases hs : strippedTotal (primaryPages pypdf p) = 0 <;>
    by_cases hr : rawTotal (afterFallback pypdf pdfminer p) = 0 <;>
    cases hp : pypdf p <;>
    cases hm : pdfminer p <;>
    simp [primaryTrace, fallbackTrace, hs, hr, hp, hm]

theorem extract_snd_eq_nil_iff (pypdf pdfminer : Loader) (p : Path) :
    (extract_pages pypdf pdfminer p).2 = [] ↔
      rawTotal (afterFallback pypdf pdfminer p) = 0 := by
  rw [extract_pages_snd]
  by_cases hr : rawTotal (afterFallback pypdf pdfminer p) = 0
  · simp [hr]
  · simp only [if_neg hr]
    constructor
    · intro h
      rw [h] at hr
      exact absurd rfl hr
    · intro h
      exact absurd h hr

theorem extract_snd_of_raw_ne (pypdf pdfminer : Loader) (p : Path)
    (hr : rawTotal (afterFallback pypdf pdfminer p) ≠ 0) :
    (extract_pages pypdf pdfminer p).2 = afterFallback pypdf pdfminer p := by
  rw [extract_pages_snd, if_neg hr]

/-- Claim C1: for every input PDF file, extraction first attempts the primary
extractor (PyPDF is invoked first, at the head of the file's event trace);
when that yields an empty (stripped) result the fallback extractor
(PDFMiner) is attempted, and only then; and when the final result is still
empty the file is skipped, `extract_pages` returning the empty page list. -/
theorem extract_pages_primary_then_fallback (pypdf pdfminer : Loader) (p : Path) :
    (extract_pages pypdf pdfminer p).1.head? = some (Event.loadPyPDF p)
  ∧ (Event.loadPDFMiner p ∈ (extract_pages pypdf pdfminer p).1 ↔
      strippedTotal (primaryPages pypdf p) = 0)
  ∧ ((extract_pages pypdf pdfminer p).2 = [] ↔
      rawTotal (afterFallback pypdf pdfminer p) = 0) :=
  ⟨extract_head pypdf pdfminer p, mem_loadPDFMiner_iff pypdf pdfminer p,
    extract_snd_eq_nil_iff pypdf pdfminer p⟩

/-- Claim C9: `extract_pages` returns `[]` exactly when the raw (unstripped)
character total of the final page list is zero, while the fallback is
triggered by the stricter stripped-total-zero condition on the primary
result; hence when the primary result is whitespace-only and the final pages
still have nonzero raw length, the fallback was attempted yet the file is
treated as successfully extracted (its pages are returned, not dropped). -/
theorem empty_result_raw_vs_stripped (pypdf pdfminer : Loader) (p : Path) :
    ((extract_pages pypdf pdfminer p).2 = [] ↔
      rawTotal (afterFallback pypdf pdfminer p) = 0)
  ∧ (Event.loadPDFMiner p ∈ (extract_pages pypdf pdfminer p).1 ↔
      strippedTotal (primaryPages pypdf p) = 0)
  ∧ (strippedTotal (primaryPages pypdf p) = 0 →
      rawTotal (afterFallback pypdf pdfminer p) ≠ 0 →
      Event.loadPDFMiner p ∈ (extract_pages pypdf pdfminer p).1
        ∧ (extract_pages pypdf pdfminer p).2 = afterFallback pypdf pdfminer p
        ∧ (extract_pages pypdf pdfminer p).2 ≠ []) := by
  refine ⟨extract_snd_eq_nil_iff pypdf pdfminer p,
    mem_loadPDFMiner_iff pypdf pdfminer p, ?_⟩
  intro hs hr
  refine ⟨(mem_loadPDFMiner_iff pypdf pdfminer p).mpr hs,
    extract_snd_of_raw_ne pypdf pdfminer p hr, ?_⟩
  intro h
  exact hr ((extract_snd_eq_nil_iff pypdf pdfminer p).mp h)

/-- Witness for C9 at concrete input: PyPDF yields a whitespace-only page
and PDFMiner raises, so the fallback fires but the file is kept. -/
theorem empty_result_raw_vs_stripped_witness :
    (((extract_pages wsLoader failLoader "a.pdf").2 = [] ↔
      rawTotal (afterFallback wsLoader failLoader "a.pdf") = 0)
  ∧ (Event.loadPDFMiner "a.pdf" ∈ (extract_pages wsLoader failLoader "a.pdf").1 ↔
      strippedTotal (primaryPages wsLoader "a.pdf") = 0)
  ∧ (strippedTotal (primaryPages wsLoader "a.pdf") = 0 →
      rawTotal (afterFallback wsLoader failLoader "a.pdf") ≠ 0 →
      Event.loadPDFMiner "a.pdf" ∈ (extract_pages wsLoader failLoader "a.pdf").1
        ∧ (extract_pages wsLoader failLoader "a.pdf").2
            = afterFallback wsLoader failLoader "a.pdf"
        ∧ (extract_pages wsLoader failLoader "a.pdf").2 ≠ [])) :=
  empty_result_raw_vs_stripped wsLoader failLoader "a.pdf"

/-! Lemmas about the sorted directory scan. -/

theorem sortPaths_nil : sortPaths ([] : List Path) = [] :=
  List.mergeSort_nil

theorem sortPaths_perm (l : List Path) : List.Perm (sortPaths l) l :=
  List.mergeSort_perm l _

theorem sortPaths_sorted (l : List Path) : List.Sorted (· ≤ ·) (sortPaths l) :=
  List.sorted_mergeSort' l

theorem sortPaths_eq_nil_iff (l : List Path) : sortPaths l = [] ↔ l = [] := by
  constructor
  · intro h
    have hp : List.Perm (sortPaths l) l := sortPaths_perm l
    rw [h] at hp
    exact List.perm_nil.mp hp.symm
  · intro h
    rw [h]
    exact sortPaths_nil

/-- Claim C3: the process terminates abnormally (a `SystemExit`, modelled by
`isErr`) in exactly three aggregate-failure cases: no PDF files in the
directory, an empty aggregated page list, or zero chunks after splitting. -/
theorem abnormal_exit_iff_aggregate_failure (listing : List Path)
    (pypdf pdfminer : Loader) (split : List Doc → List Doc) :
    isErr (run listing pypdf pdfminer split).2 = true ↔
      (listing = [] ∨ allDocs listing pypdf pdfminer = []
        ∨ split (allDocs listing pypdf pdfminer) = []) := by
  unfold run runSorted
  by_cases h0 : sortPaths listing = []
  · rw [if_pos h0]
    simp only [isErr, true_iff]
    exact Or.inl ((sortPaths_eq_nil_iff listing).mp h0)
  · rw [if_neg h0]
    have hl : ¬ listing = [] := fun h => h0 (by rw [h]; exact sortPaths_nil)
    by_cases h1 : extractedDocs (sortPaths listing) pypdf pdfminer = []
    · rw [if_pos h1]
      simp [isErr, allDocs, hl, h1]
    · rw [if_neg h1]
      by_cases h2 : split (extractedDocs (sortPaths listing) pypdf pdfminer) = []
      · rw [if_pos h2]
        simp [isErr, allDocs, hl, h1, h2]
      · rw [if_neg h2]
        simp [isErr, allDocs, hl, h1, h2]

/-- Claim C5: on a directory with zero `*.pdf` files the process terminates
with an error and no loader is ever invoked (no load event in the trace). -/
theorem no_pdfs_error_before_extraction (pypdf pdfminer : Loader)
    (split : List Doc → List Doc) :
    isErr (run [] pypdf pdfminer split).2 = true
  ∧ ∀ p : Path, Event.loadPyPDF p ∉ (run [] pypdf pdfminer split).1
      ∧ Event.loadPDFMiner p ∉ (run [] pypdf pdfminer split).1 := by
  unfold run
  rw [sortPaths_nil]
  unfold runSorted
  simp [isErr]

/-- Claim C10: the persist directory is created before the input directory
is scanned (the first two events of every run, in this order, are the mkdir
and the scan), and the mkdir event is in the trace even when the run exits
abnormally because no PDFs were found. -/
theorem persist_dir_created_before_scan (listing : List Path)
    (pypdf pdfminer : Loader) (split : List Doc → List Doc) :
    (run listing pypdf pdfminer split).1.take 2
        = [Event.mkdirPersist, Event.scanPdfDir]
  ∧ isErr (run [] pypdf pdfminer split).2 = true
  ∧ Event.mkdirPersist ∈ (run [] pypdf pdfminer split).1 := by
  refine ⟨?_, ?_, ?_⟩
  · unfold run runSorted
    split
    · rfl
    · split
      · rfl
      · split <;> rfl
  · unfold run
    rw [sortPaths_nil]
    unfold runSorted
    simp [isErr]
  · unfold run
    rw [sortPaths_nil]
    unfold runSorted
    simp

/-- Claim C7: the pipeline is a deterministic function of the directory
contents: two runs over listings that are permutations of each other (the
same set of files, enumerated in any order) produce the same trace and the
same chunks, because the listing is sorted before processing. -/
theorem same_listing_same_chunks (l1 l2 : List Path) (h : List.Perm l1 l2)
    (pypdf pdfminer : Loader) (split : List Doc → List Doc) :
    run l1 pypdf pdfminer split = run l2 pypdf pdfminer split := by
  have hs : sortPaths l1 = sortPaths l2 :=
    List.eq_of_perm_of_sorted
      ((sortPaths_perm l1).trans (h.trans (sortPaths_perm l2).symm))
      (sortPaths_sorted l1) (sortPaths_sorted l2)
  unfold run
  rw [hs]

/-- Witness for C7 at concrete input: the two enumeration orders of
`{a.pdf, b.pdf}` give identical runs. -/
theorem same_listing_same_chunks_witness :
    run ["b.pdf", "a.pdf"] okLoader emptyLoader idSplit
      = run ["a.pdf", "b.pdf"] okLoader emptyLoader idSplit :=
  same_listing_same_chunks ["b.pdf", "a.pdf"] ["a.pdf", "b.pdf"]
    (List.Perm.swap "a.pdf" "b.pdf" []) okLoader emptyLoader idSplit

/-! Per-file failure locality (C6). -/

theorem mem_extract_loadPyPDF (pypdf pdfminer : Loader) (p : Path) :
    Event.loadPyPDF p ∈ (extract_pages pypdf pdfminer p).1 := by
  rw [extract_pages_fst]
  cases hp : pypdf p <;> simp [primaryTrace, hp]

theorem mem_extract_warnPyPDF (pypdf pdfminer : Loader) (p : Path) (e : String)
    (he : pypdf p = .error e) :
    Event.warnPyPDF p e ∈ (extract_pages pypdf pdfminer p).1 := by
  rw [extract_pages_fst]
  simp [primaryTrace, he]

theorem mem_extract_warnPDFMiner (pypdf pdfminer : Loader) (p : Path) (e : String)
    (hs : strippedTotal (primaryPages pypdf p) = 0) (he : pdfminer p = .error e) :
    Event.warnPDFMiner p e ∈ (extract_pages pypdf pdfminer p).1 := by
  rw [extract_pages_fst]
  simp [fallbackTrace, hs, he]

theorem mem_run_trace (listing : List Path) (pypdf pdfminer : Loader)
    (split : List Doc → List Doc) (p : Path) (hp : p ∈ sortPaths listing)
    (x : Event) (hx : x ∈ (extract_pages pypdf pdfminer p).1) :
    x ∈ (run listing pypdf pdfminer split).1 := by
  have hne : sortPaths listing ≠ [] := List.ne_nil_of_mem hp
  have hmem : x ∈ extractTraces (sortPaths listing) pypdf pdfminer := by
    unfold extractTraces
    exact List.mem_flatten.mpr ⟨(extract_pages pypdf pdfminer p).1,
      List.mem_map_of_mem _ hp, hx⟩
  unfold run runSorted
  rw [if_neg hne]
  by_cases h1 : extractedDocs (sortPaths listing) pypdf pdfminer = []
  · rw [if_pos h1]
    simp [hmem]
  · rw [if_neg h1]
    by_cases h2 : split (extractedDocs (sortPaths listing) pypdf pdfminer) = []
    · rw [if_pos h2]
      simp [hmem]
    · rw [if_neg h2]
      simp [hmem]

/-- Claim C6: a per-file extraction failure is caught and logged and never
terminates the run by itself: every file of the (sorted) listing has its
PyPDF attempt in the run trace — also when other files raise — and a raising
loader contributes a warning event to the trace, after which the run goes
on. -/
theorem per_file_failure_is_local (listing : List Path) (pypdf pdfminer : Loader)
    (split : List Doc → List Doc) (p : Path) (hp : p ∈ sortPaths listing) :
    Event.loadPyPDF p ∈ (run listing pypdf pdfminer split).1
  ∧ (∀ e, pypdf p = .error e →
      Event.warnPyPDF p e ∈ (run listing pypdf pdfminer split).1)
  ∧ (∀ e, strippedTotal (primaryPages pypdf p) = 0 → pdfminer p = .error e →
      Event.warnPDFMiner p e ∈ (run listing pypdf pdfminer split).1) := by
  refine ⟨?_, ?_, ?_⟩
  · exact mem_run_trace listing pypdf pdfminer split p hp _
      (mem_extract_loadPyPDF pypdf pdfminer p)
  · intro e he
    exact mem_run_trace listing pypdf pdfminer split p hp _
      (mem_extract_warnPyPDF pypdf pdfminer p e he)
  · intro e hs he
    exact mem_run_trace listing pypdf pdfminer split p hp _
      (mem_extract_warnPDFMiner pypdf pdfminer p e hs he)

/-- Witness for C6 at concrete input: both loaders raise on the single file,
which is attempted and warned about in the trace. -/
theorem per_file_failure_is_local_witness :
    Event.loadPyPDF "a.pdf" ∈ (run ["a.pdf"] failLoader failLoader idSplit).1
  ∧ (∀ e, failLoader "a.pdf" = .error e →
      Event.warnPyPDF "a.pdf" e ∈ (run ["a.pdf"] failLoader failLoader idSplit).1)
  ∧ (∀ e, strippedTotal (primaryPages failLoader "a.pdf") = 0 →
      failLoader "a.pdf" = .error e →
      Event.warnPDFMiner "a.pdf" e
        ∈ (run ["a.pdf"] failLoader failLoader idSplit).1) :=
  per_file_failure_is_local ["a.pdf"] failLoader failLoader idSplit "a.pdf"
    ((sortPaths_perm ["a.pdf"]).mem_iff.mpr (by simp))

/-! Aggregation order (C8). -/

theorem flatten_map_drop_take {α β : Type} (f : α → List β) :
    ∀ (l : List α) (i : Nat) (a : α), l[i]? = some a →
      (((l.map f).flatten.drop
          (((l.take i).map (fun x => (f x).length)).sum)).take (f a).length)
        = f a := by
  intro l
  induction l with
  | nil =>
    intro i a h
    simp at h
  | cons x xs ih =>
    intro i a h
    cases i with
    | zero =>
      simp only [List.getElem?_cons_zero, Option.some.injEq] at h
      subst h
      simp only [List.map_cons, List.flatten_cons, List.take_zero, List.map_nil,
        List.sum_nil, List.drop_zero]
      exact List.take_left (f x) ((xs.map f).flatten)
    | succ n =>
      simp only [List.getElem?_cons_succ] at h
      simp only [List.map_cons, List.flatten_cons, List.take_succ_cons,
        List.sum_cons]
      rw [← List.drop_drop, List.drop_left]
      exact ih n a h

/-- Claim C8: aggregation concatenates the per-file page lists, in sorted
file order, into one sequence, and the pages of each file form a contiguous
in-order segment of the aggregate: dropping the pages of the files before
file `i` and taking that file's page count recovers exactly that file's
extracted pages. -/
theorem aggregation_pages_contiguous (listing : List Path)
    (pypdf pdfminer : Loader) (i : Nat) (p : Path)
    (hp : (sortPaths listing)[i]? = some p) :
    allDocs listing pypdf pdfminer
        = ((sortPaths listing).map (filePages pypdf pdfminer)).flatten
  ∧ ((allDocs listing pypdf pdfminer).drop
        ((((sortPaths listing).take i).map
            (fun q => (filePages pypdf pdfminer q).length)).sum)).take
      (filePages pypdf pdfminer p).length = filePages pypdf pdfminer p :=
  ⟨rfl, flatten_map_drop_take (filePages pypdf pdfminer) (sortPaths listing) i p hp⟩

/-- Witness for C8 at concrete input: the single file of a one-file
directory occupies the whole aggregate. -/
theorem aggregation_pages_contiguous_witness :
    allDocs ["a.pdf"] okLoader okLoader
        = ((sortPaths ["a.pdf"]).map (filePages okLoader okLoader)).flatten
  ∧ ((allDocs ["a.pdf"] okLoader okLoader).drop
        ((((sortPaths ["a.pdf"]).take 0).map
            (fun q => (filePages okLoader okLoader q).length)).sum)).take
      (filePages okLoader okLoader "a.pdf").length
        = filePages okLoader okLoader "a.pdf" :=
  aggregation_pages_contiguous ["a.pdf"] okLoader okLoader 0 "a.pdf"
    (by rw [show sortPaths ["a.pdf"] = ["a.pdf"] from
          List.mergeSort_eq_self (List.sorted_singleton "a.pdf")]
        rfl)

/-! Source tracking (C4). -/

theorem mem_primaryPages_source (pypdf : Loader) (q : Path) (d : Doc)
    (hs1 : ∀ r ds, pypdf r = .ok ds → ∀ e ∈ ds, e.source = r)
    (hd : d ∈ primaryPages pypdf q) : d.source = q := by
  unfold primaryPages at hd
  cases hq : pypdf q with
  | ok ds =>
    rw [hq] at hd
    exact hs1 q ds hq d hd
  | error e =>
    rw [hq] at hd
    exact absurd hd (List.not_mem_nil d)

theorem mem_filePages_source (pypdf pdfminer : Loader) (q : Path) (d : Doc)
    (hs1 : ∀ r ds, pypdf r = .ok ds → ∀ e ∈ ds, e.source = r)
    (hs2 : ∀ r ds, pdfminer r = .ok ds → ∀ e ∈ ds, e.source = r)
    (hd : d ∈ filePages pypdf pdfminer q) :
    d.source = q ∧ rawTotal (afterFallback pypdf pdfminer q) ≠ 0 := by
  unfold filePages at hd
  rw [extract_pages_snd] at hd
  by_cases hr : rawTotal (afterFallback pypdf pdfminer q) = 0
  · rw [if_pos hr] at hd
    exact absurd hd (List.not_mem_nil d)
  · rw [if_neg hr] at hd
    refine ⟨?_, hr⟩
    unfold afterFallback at hd
    by_cases hst : strippedTotal (primaryPages pypdf q) = 0
    · rw [if_pos hst] at hd
      cases hq : pdfminer q with
      | ok ds =>
        rw [hq] at hd
        exact hs2 q ds hq d hd
      | error e =>
        rw [hq] at hd
        exact mem_primaryPages_source pypdf q d hs1 hd
    · rw [if_neg hst] at hd
      exact mem_primaryPages_source pypdf q d hs1 hd

/-- Claim C4: a file whose extraction yields zero raw characters via both
extractors contributes no pages (its `extract_pages` result is empty), every
aggregated page originates from a file with non-empty extracted text, and no
chunk that reaches persistence references the zero-character file — for
loaders that tag pages with the loaded path and any splitter whose chunks
carry a source drawn from its input documents. -/
theorem zero_char_file_no_persisted_reference (listing : List Path)
    (pypdf pdfminer : Loader) (split : List Doc → List Doc)
    (hs1 : ∀ r ds, pypdf r = .ok ds → ∀ e ∈ ds, e.source = r)
    (hs2 : ∀ r ds, pdfminer r = .ok ds → ∀ e ∈ ds, e.source = r)
    (hsplit : ∀ ds c, c ∈ split ds → c.source ∈ ds.map Doc.source)
    (f : Path) (hf : rawTotal (afterFallback pypdf pdfminer f) = 0) :
    filePages pypdf pdfminer f = []
  ∧ (∀ d ∈ allDocs listing pypdf pdfminer,
      rawTotal (afterFallback pypdf pdfminer d.source) ≠ 0)
  ∧ (∀ c ∈ split (allDocs listing pypdf pdfminer), c.source ≠ f) := by
  have hsrc : ∀ d ∈ allDocs listing pypdf pdfminer,
      rawTotal (afterFallback pypdf pdfminer d.source) ≠ 0 := by
    intro d hd
    unfold allDocs extractedDocs at hd
    rcases List.mem_flatten.mp hd with ⟨ds, hds, hdmem⟩
    rcases List.mem_map.mp hds with ⟨q, _, hq⟩
    rw [← hq] at hdmem
    rcases mem_filePages_source pypdf pdfminer q d hs1 hs2 hdmem with ⟨hsq, hraw⟩
    rw [hsq]
    exact hraw
  refine ⟨?_, hsrc, ?_⟩
  · unfold filePages
    rw [extract_pages_snd, if_pos hf]
  · intro c hc hcf
    rcases List.mem_map.mp (hsplit _ c hc) with ⟨d, hd, hdc⟩
    have := hsrc d hd
    rw [hdc, hcf] at this
    exact this hf

/-- Witness for C4 at concrete input: `b.pdf` yields no text under either
loader, so with the identity splitter no chunk of the two-file run
references it. -/
theorem zero_char_file_no_persisted_reference_witness :
    filePages srcLoader srcLoader "b.pdf" = []
  ∧ (∀ d ∈ allDocs ["a.pdf", "b.pdf"] srcLoader srcLoader,
      rawTotal (afterFallback srcLoader srcLoader d.source) ≠ 0)
  ∧ (∀ c ∈ idSplit (allDocs ["a.pdf", "b.pdf"] srcLoader srcLoader),
      c.source ≠ "b.pdf") := by
  refine zero_char_file_no_persisted_reference ["a.pdf", "b.pdf"]
    srcLoader srcLoader idSplit ?_ ?_ ?_ "b.pdf" ?_
  · intro r ds h e he
    unfold srcLoader at h
    split at h <;> cases h <;> simp_all
  · intro r ds h e he
    unfold srcLoader at h
    split at h <;> cases h <;> simp_all
  · intro ds c hc
    exact List.mem_map_of_mem _ hc
  · rfl

/-! Chunk count (C2). -/

theorem splitFixed_length_eq : ∀ (n : Nat) (t : List Char), t.length = n →
    (splitFixed t).length = chunkCount t.length := by
  intro n
  induction n using Nat.strong_induction_on with
  | _ n ih =>
    intro t ht
    by_cases h : t.length ≤ CHUNK_SIZE
    · unfold splitFixed chunkCount
      rw [if_pos h]
      cases t with
      | nil => simp
      | cons c cs =>
        simp only [List.length_cons] at h
        simp [h]
    · unfold splitFixed chunkCount
      rw [if_neg h]
      have h0 : ¬ t.length = 0 := by
        simp only [CHUNK_SIZE] at h
        omega
      rw [if_neg h0, if_neg h]
      simp only [List.length_cons]
      have hlt : (t.drop (CHUNK_SIZE - CHUNK_OVERLAP)).length < n := by
        rw [List.length_drop, ← ht]
        simp only [CHUNK_SIZE, CHUNK_OVERLAP] at h ⊢
        omega
      rw [ih _ hlt _ rfl, List.length_drop]
      omega

/-- Claim C2: for extracted text, the number of chunks the (spec-modelled)
splitter produces is a deterministic function of the total character count
alone — `chunkCount` — and the chunk size and overlap are the fixed program
constants 1000 and 150. -/
theorem chunk_count_depends_only_on_length (s : List Char) :
    (splitFixed s).length = chunkCount s.length
  ∧ CHUNK_SIZE = 1000 ∧ CHUNK_OVERLAP = 150 :=
  ⟨splitFixed_length_eq s.length s rfl, rfl, rfl⟩

end EmbedGuidelines
